import Mathlib

/-!
Shallow embedding of the EndoMatch eligibility-audit pipeline
(`api_server.py`): document retrieval with a metadata filter, the
retry-wrapped audit call, and the `/match` request handler.

Python metadata dictionaries are modelled as association lists from
string keys to tagged values (`MetaVal`), so that the Python distinction
between the boolean `True` and truthy non-booleans (`1`, `"true"`) is
preserved.  The FAISS vector store is modelled as a ranking oracle: for
each query it yields the ranked list of all documents, and
`similarity_search` takes the first `k` that satisfy the filter.  The
external reasoning service (`llm.invoke`) is an oracle mapping a prompt
and a 1-based attempt number to either a response text or an exception.
-/

/-- A Python metadata value: booleans, integers, strings and `None` are
the shapes that occur in trial-document metadata. -/
inductive MetaVal where
  | boolV : Bool → MetaVal
  | intV : Int → MetaVal
  | strV : String → MetaVal
  | noneV : MetaVal
deriving DecidableEq, Repr

/-- Python `str()` rendering of a metadata value, as used when a value is
interpolated into an f-string. -/
def MetaVal.pyStr : MetaVal → String
  | .boolV true => "True"
  | .boolV false => "False"
  | .intV n => toString n
  | .strV s => s
  | .noneV => "None"

/-- A LangChain `Document`: free text plus a metadata dictionary. -/
structure Document where
  page_content : String
  metadata : List (String × MetaVal)
deriving DecidableEq, Repr

/-- Python `dict.get(key)` (default `None` represented as `Option.none`). -/
def metaGet (m : List (String × MetaVal)) (key : String) : Option MetaVal :=
  match m with
  | [] => none
  | (k, v) :: rest => if k = key then some v else metaGet rest key

/-- Python `dict.get(key, default)` with a string default, as in
`metadata.get` with key `nct_id` and default `N/A`. -/
def metaGetD (m : List (String × MetaVal)) (key : String) (dflt : String) : MetaVal :=
  match metaGet m key with
  | some v => v
  | none => .strV dflt

/-- The FAISS vector store, abstracted as a ranking oracle: for a query it
gives the ranked (by similarity) list of all indexed documents. -/
structure VectorStore where
  ranked : String → List Document

/-- `FAISS.similarity_search(query, k=k, filter=...)`: up to `k` ranked
documents whose metadata satisfies the filter; fewer when the corpus has
fewer matching documents. -/
def similarity_search (db : VectorStore) (query : String) (k : Nat)
    (flt : List (String × MetaVal) → Bool) : List Document :=
  (List.filter (fun d => flt d.metadata) (db.ranked query)).take k

/-- The filter lambda of `retrieve_trials`:
`lambda metadata: metadata.get("is_us_trial") is True`.  The Python test `is True`
is an identity test against the boolean `True`, so only the exact boolean
passes. -/
def us_filter (metadata : List (String × MetaVal)) : Bool :=
  match metaGet metadata "is_us_trial" with
  | some (.boolV true) => true
  | _ => false

/-- `retrieve_trials(query, k=3)`: returns `[]` when the store global is
`None`, otherwise one filtered similarity search. -/
def retrieve_trials (vector_db : Option VectorStore) (query : String) (k : Nat := 3) :
    List Document :=
  match vector_db with
  | none => []
  | some db => similarity_search db query k us_filter

/-- Exceptions that can escape `llm.invoke`, tagged by class:
`google.genai.errors.ClientError` (HTTP 4xx: bad request 400,
authentication 401/403, rate limit / quota 429),
`google.genai.errors.ServerError` (HTTP 5xx: server busy 503),
`ChatGoogleGenerativeAIError`, any other exception, and the tenacity
`RetryError` raised after the stop condition. -/
inductive GenException where
  | clientError : Nat → String → GenException
  | serverError : Nat → String → GenException
  | chatGoogleError : String → GenException
  | otherError : String → GenException
  | retryError : GenException → GenException
deriving DecidableEq, Repr

/-- Python `str(e)` for the exceptions above (the exact text is opaque to
the pipeline; only its use as a failure description matters). -/
def GenException.pyStr : GenException → String
  | .clientError code msg => toString code ++ " " ++ msg
  | .serverError code msg => toString code ++ " " ++ msg
  | .chatGoogleError msg => msg
  | .otherError msg => msg
  | .retryError _ => "RetryError[<Future state=finished raised exception>]"

/-- The retry predicate of the `@retry` decorator:
`retry_if_exception_type((ClientError, ChatGoogleGenerativeAIError))`. -/
def isRetryable : GenException → Bool
  | .clientError _ _ => true
  | .chatGoogleError _ => true
  | _ => false

/-- the tenacity `wait_exponential(multiplier, min, max)` evaluated after the
attempt numbered `attemptNumber` (1-based):
`clamp (multiplier * 2 ^ attemptNumber)` into `[minW, maxW]`. -/
def wait_exponential (multiplier minW maxW attemptNumber : Nat) : Nat :=
  max minW (min (multiplier * 2 ^ attemptNumber) maxW)

deriving instance DecidableEq for Except

/-- Outcome of one retry-wrapped call: the value or escaping exception, the
number of attempts actually made, and the backoff waits slept between
consecutive attempts. -/
structure RetryTrace where
  result : Except GenException String
  attempts : Nat
  waits : List Nat
deriving DecidableEq, Repr

/-- the tenacity retry loop for
`retry(retry=retry_if_exception_type((ClientError, ChatGoogleGenerativeAIError)),
wait=wait_exponential(multiplier=1, min=2, max=10), stop=stop_after_attempt(5))`:
`f n` is the result of the `n`-th (1-based) call of the wrapped function;
`remaining` is how many attempts may still run.  A success returns; a
non-retryable exception is re-raised at once; a retryable exception either
triggers a backoff wait and another attempt, or — when the stop condition
`attempt_number >= 5` holds — raises `RetryError`. -/
def tenacityRun (f : Nat → Except GenException String) :
    Nat → Nat → RetryTrace
  | _, 0 => ⟨.error (.otherError "no attempt"), 0, []⟩
  | attemptNumber, remaining + 1 =>
    match f attemptNumber with
    | .ok s => ⟨.ok s, attemptNumber, []⟩
    | .error e =>
      if isRetryable e then
        if remaining = 0 then
          ⟨.error (.retryError e), attemptNumber, []⟩
        else
          let w := wait_exponential 1 2 10 attemptNumber
          let t := tenacityRun f (attemptNumber + 1) remaining
          ⟨t.result, t.attempts, w :: t.waits⟩
      else
        ⟨.error e, attemptNumber, []⟩

/-- `generate_audit_sync(prompt)`: `llm.invoke(prompt)` under the retry
decorator, starting at attempt 1 with at most 5 attempts.  `f` is the
invoke oracle already applied to the prompt. -/
def generate_audit_sync (f : Nat → Except GenException String) : RetryTrace :=
  tenacityRun f 1 5

/-- The external reasoning service: a prompt and a 1-based attempt number
yield either the response content or an exception. -/
def LLMOracle : Type := String → Nat → Except GenException String

/-- Python `doc.page_content[:2500]`: the first `n` characters, or the
whole string when it is shorter. -/
def pySlice (s : String) (n : Nat) : String := ⟨s.data.take n⟩

/-- The eligibility text as included in the audit prompt, capped at 2500
characters. -/
def truncatedCriteria (doc : Document) : String := pySlice doc.page_content 2500

/-- The audit prompt f-string of `match_trials`, byte for byte (the
f-string body is indented with 12 spaces in the source). -/
def buildPrompt (summary : String) (doc : Document) : String :=
  "\n            Act as a Clinical Trial Auditor.\n            Patient: "
    ++ summary
    ++ "\n            Trial Phase: "
    ++ (metaGetD doc.metadata "phase" "Unknown").pyStr
    ++ "\n            Criteria: "
    ++ truncatedCriteria doc
    ++ "\n            \n            Is the patient ELIGIBLE? Start with YES, NO, or MAYBE. Then explain why.\n            "

/-- One entry of the `matches` array. -/
structure MatchEntry where
  nct_id : MetaVal
  title : MetaVal
  phase : MetaVal
  url : MetaVal
  analysis : String
deriving DecidableEq, Repr

/-- One iteration of the audit loop of `match_trials`: build the prompt,
run the retry-wrapped audit inside `try/except Exception`, and assemble the
entry.  An escaping exception becomes
`analysis_content = f"⚠️ AI Error: {str(e)}"`. -/
def auditEntry (llm : LLMOracle) (summary : String) (doc : Document) : MatchEntry :=
  let analysis_content :=
    match (generate_audit_sync (llm (buildPrompt summary doc))).result with
    | .ok content => content
    | .error e => "⚠️ AI Error: " ++ e.pyStr
  { nct_id := metaGetD doc.metadata "nct_id" "N/A"
    title := metaGetD doc.metadata "title" "Untitled"
    phase := metaGetD doc.metadata "phase" "N/A"
    url := metaGetD doc.metadata "url" "#"
    analysis := analysis_content }

/-- A request-level failure raised by the handler
(`HTTPException(status_code, detail)`). -/
inductive MatchError where
  | httpException : Nat → String → MatchError
deriving DecidableEq, Repr

/-- The `/match` handler `match_trials`: raise 500 when the store global is
`None`; otherwise retrieve up to 3 candidates and run the sequential audit
loop, appending one entry per document in retrieval order. -/
def match_trials (vector_db : Option VectorStore) (llm : LLMOracle)
    (summary : String) : Except MatchError (List MatchEntry) :=
  match vector_db with
  | none => .error (.httpException 500 "Database not loaded")
  | some db =>
    let docs := retrieve_trials (some db) summary 3
    .ok (docs.map (auditEntry llm summary))

/-- Wall time of one `generate_audit_sync` call: the durations of the
attempts actually made (`attDur n` is the duration of the `n`-th invoke)
plus the backoff waits slept between them. -/
def auditTime (attDur : Nat → Nat) (f : Nat → Except GenException String) : Nat :=
  let t := generate_audit_sync f
  (List.map (fun i => attDur (i + 1)) (List.range t.attempts)).sum + t.waits.sum

/-- Wall time of the audit phase of `match_trials`: the loop body blocks on
each `generate_audit_sync` in turn, so the elapsed time is the sum of the
per-candidate audit times. -/
def matchLatency (db : VectorStore) (llm : LLMOracle)
    (attDur : String → Nat → Nat) (summary : String) : Nat :=
  (List.map
    (fun doc => auditTime (attDur (buildPrompt summary doc)) (llm (buildPrompt summary doc)))
    (retrieve_trials (some db) summary 3)).sum

/-- Decidable check that `pat` occurs at the head of `l`. -/
def headOcc : List Char → List Char → Bool
  | [], _ => true
  | _ :: _, [] => false
  | a :: as, b :: bs => if a = b then headOcc as bs else false

/-- Decidable check that `pat` occurs contiguously somewhere in `l`. -/
def anyOcc (pat : List Char) : List Char → Bool
  | [] => pat.isEmpty
  | c :: rest => headOcc pat (c :: rest) || anyOcc pat rest

/-- `hasSubstr s pat` holds when `pat` occurs contiguously in `s`. -/
def hasSubstr (s pat : String) : Bool := anyOcc pat.data s.data

/-- Leading constant segment of the audit prompt, up to the patient case. -/
def promptHead : String := "\n            Act as a Clinical Trial Auditor.\n            Patient: "

/-- Constant segment of the audit prompt before the trial phase. -/
def promptPhase : String := "\n            Trial Phase: "

/-- Constant segment of the audit prompt before the eligibility criteria. -/
def promptCriteria : String := "\n            Criteria: "

/-- Trailing constant segment of the audit prompt, holding the verdict
instruction. -/
def promptTail : String := "\n            \n            Is the patient ELIGIBLE? Start with YES, NO, or MAYBE. Then explain why.\n            "

/-- The fixed verdict instruction embedded in every audit prompt. -/
def instructionText : String := "Is the patient ELIGIBLE? Start with YES, NO, or MAYBE. Then explain why."

/-- A fully populated domestic (US) trial document. -/
def usDoc1 : Document :=
  ⟨"Inclusion: adult women aged 18 to 45 with laparoscopically confirmed endometriosis.",
   [("is_us_trial", .boolV true), ("nct_id", .strV "NCT00000001"),
    ("title", .strV "Trial One"), ("phase", .strV "Phase 2"),
    ("url", .strV "https://example.org/1")]⟩

/-- A second fully populated domestic trial document. -/
def usDoc2 : Document :=
  ⟨"Inclusion: pelvic pain persisting for at least six months.",
   [("is_us_trial", .boolV true), ("nct_id", .strV "NCT00000002"),
    ("title", .strV "Trial Two"), ("phase", .strV "Phase 3"),
    ("url", .strV "https://example.org/2")]⟩

/-- A document whose `is_us_trial` value is the integer 1: truthy in Python
but not the boolean `True`. -/
def intDoc : Document :=
  ⟨"Integer-flag trial.", [("is_us_trial", .intV 1), ("nct_id", .strV "NCT00000009")]⟩

/-- A document whose metadata lacks the `is_us_trial` key. -/
def noFlagDoc : Document :=
  ⟨"No-flag trial.", [("nct_id", .strV "NCT00000008")]⟩

/-- A domestic document whose `nct_id` metadata value is the empty string. -/
def emptyIdDoc : Document :=
  ⟨"Empty-id trial.", [("is_us_trial", .boolV true), ("nct_id", .strV "")]⟩

/-- A domestic document whose eligibility text is 3000 characters long. -/
def longDoc : Document :=
  ⟨String.mk (List.replicate 3000 'x'), [("is_us_trial", .boolV true)]⟩

/-- A store ranking two domestic and two non-domestic documents. -/
def demoStore : VectorStore := ⟨fun _ => [usDoc1, intDoc, usDoc2, noFlagDoc]⟩

/-- A store whose index is empty. -/
def emptyStore : VectorStore := ⟨fun _ => []⟩

/-- A store holding only the empty-id document. -/
def emptyIdStore : VectorStore := ⟨fun _ => [emptyIdDoc]⟩

/-- A store ranking exactly the two domestic documents. -/
def pairStore : VectorStore := ⟨fun _ => [usDoc1, usDoc2]⟩

/-- A reasoning service that answers every prompt on the first attempt. -/
def okOracle : LLMOracle := fun _ _ => .ok "YES. The patient meets the criteria."

/-- A reasoning service raising an unexpected exception for the audit of
`usDoc1` with the demo summary and answering all other prompts. -/
def failDoc1Oracle : LLMOracle := fun p _ =>
  if p = buildPrompt "35F with pelvic pain" usDoc1 then .error (.otherError "boom")
  else .ok "NO. The patient does not qualify."

/-- Invoke results of a service that always raises an authentication
failure: `ClientError` with HTTP status 401, a permanent failure class. -/
def authFailAttempts : Nat → Except GenException String :=
  fun _ => .error (.clientError 401 "UNAUTHENTICATED")

/-- Invoke results of a service that always raises a rate-limit failure:
`ClientError` with HTTP status 429, a transient failure class. -/
def rateFailAttempts : Nat → Except GenException String :=
  fun _ => .error (.clientError 429 "RESOURCE_EXHAUSTED")

/-- Invoke results of a service that always raises a server-busy failure:
`ServerError` with HTTP status 503. -/
def serverBusyAttempts : Nat → Except GenException String :=
  fun _ => .error (.serverError 503 "UNAVAILABLE")

/-- A duration oracle assigning one time-unit to every invoke attempt. -/
def unitDur : String → Nat → Nat := fun _ _ => 1

theorem retrieve_length_le (db : VectorStore) (q : String) (k : Nat) :
    (retrieve_trials (some db) q k).length ≤ k := by
  unfold retrieve_trials similarity_search
  exact List.length_take_le ..

theorem tenacityRun_nonretry (g : Nat → Except GenException String) (a r : Nat)
    (e : GenException) (hg : g a = .error e) (hr : isRetryable e = false) :
    tenacityRun g a (r + 1) = ⟨.error e, a, []⟩ := by
  simp [tenacityRun, hg, hr]

theorem tenacityRun_last (f : Nat → Except GenException String) (a : Nat)
    (e : GenException) (h : f a = .error e) (hr : isRetryable e = true) :
    tenacityRun f a 1 = ⟨.error (.retryError e), a, []⟩ := by
  simp [tenacityRun, h, hr]

theorem tenacityRun_step (f : Nat → Except GenException String) (a r : Nat)
    (e : GenException) (h : f a = .error e) (hr : isRetryable e = true) :
    tenacityRun f a (r + 2) =
      ⟨(tenacityRun f (a + 1) (r + 1)).result, (tenacityRun f (a + 1) (r + 1)).attempts,
        wait_exponential 1 2 10 a :: (tenacityRun f (a + 1) (r + 1)).waits⟩ := by
  simp [tenacityRun, h, hr]

theorem tenacity_exhaust (f : Nat → Except GenException String)
    (e1 e2 e3 e4 e5 : GenException)
    (h1 : f 1 = .error e1) (h2 : f 2 = .error e2) (h3 : f 3 = .error e3)
    (h4 : f 4 = .error e4) (h5 : f 5 = .error e5)
    (r1 : isRetryable e1 = true) (r2 : isRetryable e2 = true)
    (r3 : isRetryable e3 = true) (r4 : isRetryable e4 = true)
    (r5 : isRetryable e5 = true) :
    generate_audit_sync f = ⟨.error (.retryError e5), 5, [2, 4, 8, 10]⟩ := by
  have s5 : tenacityRun f 5 1 = ⟨.error (.retryError e5), 5, []⟩ :=
    tenacityRun_last f 5 e5 h5 r5
  have s4 : tenacityRun f 4 2 = ⟨.error (.retryError e5), 5, [10]⟩ := by
    have hs := tenacityRun_step f 4 0 e4 h4 r4
    rw [hs, s5]
    simp [wait_exponential]
  have s3 : tenacityRun f 3 3 = ⟨.error (.retryError e5), 5, [8, 10]⟩ := by
    have hs := tenacityRun_step f 3 1 e3 h3 r3
    rw [hs, s4]
    simp [wait_exponential]
  have s2 : tenacityRun f 2 4 = ⟨.error (.retryError e5), 5, [4, 8, 10]⟩ := by
    have hs := tenacityRun_step f 2 2 e2 h2 r2
    rw [hs, s3]
    simp [wait_exponential]
  have s1 : tenacityRun f 1 5 = ⟨.error (.retryError e5), 5, [2, 4, 8, 10]⟩ := by
    have hs := tenacityRun_step f 1 3 e1 h1 r1
    rw [hs, s2]
    simp [wait_exponential]
  exact s1

theorem headOcc_self_append (p y : List Char) : headOcc p (p ++ y) = true := by
  induction p with
  | nil => rfl
  | cons c cs ih => simp [headOcc, ih]

theorem anyOcc_nil_pat (l : List Char) : anyOcc [] l = true := by
  cases l with
  | nil => rfl
  | cons c rest => simp [anyOcc, headOcc]

theorem anyOcc_mid (p x y : List Char) : anyOcc p (x ++ (p ++ y)) = true := by
  induction x with
  | nil =>
    cases p with
    | nil => simp [anyOcc_nil_pat]
    | cons c cs => simp [anyOcc, headOcc, headOcc_self_append]
  | cons c cs ih => simp [anyOcc, ih]

theorem hasSubstr_decomp (x pat y s : String) (h : s = x ++ pat ++ y) :
    hasSubstr s pat = true := by
  subst h
  unfold hasSubstr
  rw [String.data_append, String.data_append, List.append_assoc]
  exact anyOcc_mid pat.data x.data y.data

/-- C1: whenever the store is available, `match_trials` succeeds and the
returned `matches` array has exactly one entry per document returned by
`retrieve_trials`, in retrieval order (the entry at index `i` is the audit
of the document at index `i`), and its length is at most K = 3. -/
theorem c1_one_entry_per_candidate (db : VectorStore) (llm : LLMOracle) (summary : String) :
    ∃ entries, match_trials (some db) llm summary = .ok entries
      ∧ entries.length = (retrieve_trials (some db) summary 3).length
      ∧ entries.length ≤ 3
      ∧ ∀ (i : Nat) (h1 : i < entries.length)
          (h2 : i < (retrieve_trials (some db) summary 3).length),
          entries[i] = auditEntry llm summary ((retrieve_trials (some db) summary 3)[i]) := by
  refine ⟨(retrieve_trials (some db) summary 3).map (auditEntry llm summary), rfl,
    List.length_map .., ?_, ?_⟩
  · rw [List.length_map]
    exact retrieve_length_le db summary 3
  · intro i h1 h2
    exact List.getElem_map ..

/-- C1 witness: on the demo store the response has one entry per retrieved
document and the first entry audits the first retrieved document. -/
theorem c1_one_entry_per_candidate_witness :
    ∃ entries, match_trials (some demoStore) okOracle "35F with pelvic pain" = .ok entries
      ∧ entries.length = (retrieve_trials (some demoStore) "35F with pelvic pain" 3).length
      ∧ entries.length ≤ 3
      ∧ entries[0]? = some (auditEntry okOracle "35F with pelvic pain" usDoc1) := by
  obtain ⟨entries, hok, hlen, hle, hidx⟩ :=
    c1_one_entry_per_candidate demoStore okOracle "35F with pelvic pain"
  have hL : (retrieve_trials (some demoStore) "35F with pelvic pain" 3).length = 2 := rfl
  have h1 : 0 < entries.length := by rw [hlen, hL]; decide
  have h2 : 0 < (retrieve_trials (some demoStore) "35F with pelvic pain" 3).length := by
    rw [hL]; decide
  refine ⟨entries, hok, hlen, hle, ?_⟩
  rw [List.getElem?_eq_getElem h1, hidx 0 h1 h2]
  rfl

/-- C2: an exception escaping the retry-wrapped audit call of a candidate
is converted into that candidate entry, whose `analysis` is the error
marker followed by the failure description; the request still succeeds with
one entry per retrieved document, and every candidate entry depends only on
the oracle responses to its own prompt, so a failure on one candidate
leaves the others unaffected. -/
theorem c2_failure_isolation (db : VectorStore) (llm llm2 : LLMOracle) (summary : String)
    (doc : Document) (e : GenException)
    (herr : (generate_audit_sync (llm (buildPrompt summary doc))).result = .error e) :
    (auditEntry llm summary doc).analysis = "⚠️ AI Error: " ++ e.pyStr
    ∧ (∃ entries, match_trials (some db) llm summary = .ok entries
        ∧ entries.length = (retrieve_trials (some db) summary 3).length)
    ∧ (∀ d : Document,
        (∀ n, llm2 (buildPrompt summary d) n = llm (buildPrompt summary d) n) →
        auditEntry llm2 summary d = auditEntry llm summary d) := by
  refine ⟨?_, ?_, ?_⟩
  · simp [auditEntry, herr]
  · exact ⟨(retrieve_trials (some db) summary 3).map (auditEntry llm summary), rfl,
      List.length_map ..⟩
  · intro d hd
    have hfun : llm2 (buildPrompt summary d) = llm (buildPrompt summary d) := funext hd
    simp [auditEntry, hfun]

set_option maxRecDepth 10000 in
/-- C2 witness: with an oracle raising an unexpected exception only for the
audit of `usDoc1`, that entry carries the error marker, the request still
succeeds with full length, and the `usDoc2` entry is unchanged. -/
theorem c2_failure_isolation_witness :
    (auditEntry failDoc1Oracle "35F with pelvic pain" usDoc1).analysis
      = "⚠️ AI Error: " ++ (GenException.otherError "boom").pyStr
    ∧ (∃ entries, match_trials (some demoStore) failDoc1Oracle "35F with pelvic pain" = .ok entries
        ∧ entries.length = (retrieve_trials (some demoStore) "35F with pelvic pain" 3).length)
    ∧ auditEntry failDoc1Oracle "35F with pelvic pain" usDoc2
        = auditEntry failDoc1Oracle "35F with pelvic pain" usDoc2 := by
  have h := c2_failure_isolation demoStore failDoc1Oracle failDoc1Oracle "35F with pelvic pain"
    usDoc1 (.otherError "boom") (by decide)
  exact ⟨h.1, h.2.1, h.2.2 usDoc2 (fun n => rfl)⟩

/-- C3 counterexample: an authentication failure (`ClientError`, HTTP 401)
is a permanent failure class, yet the retry decorator retries it — a
persistently auth-failing service sees 5 attempts, not the single attempt
the claim requires for permanent failures. -/
theorem c3_counterexample :
    (generate_audit_sync authFailAttempts).attempts = 5
    ∧ ¬ (generate_audit_sync authFailAttempts).attempts = 1 := by decide

/-- C3 amended: the audit call retries exactly on the exception classes
`ClientError` and `ChatGoogleGenerativeAIError` — a set that includes
permanent client failures (authentication, malformed request) and excludes
5xx server-busy failures — and on a persistently failing retryable service
it makes exactly 5 attempts with backoff waits [2, 4, 8, 10]:
non-decreasing, each at least 2 and at most 10, after which the call fails
so the caller synthesizes a failure outcome; a non-retryable exception on
the first attempt escapes immediately with no retry. -/
theorem c3_retry_policy (f : Nat → Except GenException String)
    (hf : ∀ n, ∃ e, f n = .error e ∧ isRetryable e = true) :
    (generate_audit_sync f).attempts = 5
    ∧ (generate_audit_sync f).waits = [2, 4, 8, 10]
    ∧ List.Chain' (fun a b => a ≤ b) (generate_audit_sync f).waits
    ∧ (∀ w ∈ (generate_audit_sync f).waits, 2 ≤ w ∧ w ≤ 10)
    ∧ (∃ e, (generate_audit_sync f).result = .error e)
    ∧ (∀ (g : Nat → Except GenException String) e2, g 1 = .error e2 →
        isRetryable e2 = false → generate_audit_sync g = ⟨.error e2, 1, []⟩) := by
  obtain ⟨e1, h1, r1⟩ := hf 1
  obtain ⟨e2, h2, r2⟩ := hf 2
  obtain ⟨e3, h3, r3⟩ := hf 3
  obtain ⟨e4, h4, r4⟩ := hf 4
  obtain ⟨e5, h5, r5⟩ := hf 5
  have key := tenacity_exhaust f e1 e2 e3 e4 e5 h1 h2 h3 h4 h5 r1 r2 r3 r4 r5
  rw [key]
  refine ⟨rfl, rfl, ?_, ?_, ⟨.retryError e5, rfl⟩, ?_⟩
  · show List.Chain (fun a b => a ≤ b) 2 [4, 8, 10]
    exact .cons (by norm_num) (.cons (by norm_num) (.cons (by norm_num) .nil))
  · show ∀ w ∈ [2, 4, 8, 10], 2 ≤ w ∧ w ≤ 10
    decide
  · intro g e2c hg hr
    exact tenacityRun_nonretry g 1 4 e2c hg hr

/-- C3 witness: a persistent rate-limit failure is retried to exactly 5
attempts with waits [2, 4, 8, 10]; a server-busy failure (HTTP 503) escapes
on the first attempt without retry. -/
theorem c3_retry_policy_witness :
    (generate_audit_sync rateFailAttempts).attempts = 5
    ∧ (generate_audit_sync rateFailAttempts).waits = [2, 4, 8, 10]
    ∧ (2 ≤ 2 ∧ 2 ≤ 10)
    ∧ generate_audit_sync serverBusyAttempts
        = ⟨.error (.serverError 503 "UNAVAILABLE"), 1, []⟩ := by
  have h := c3_retry_policy rateFailAttempts
    (fun n => ⟨.clientError 429 "RESOURCE_EXHAUSTED", rfl, rfl⟩)
  refine ⟨h.1, h.2.1, ?_, h.2.2.2.2.2 serverBusyAttempts (.serverError 503 "UNAVAILABLE") rfl rfl⟩
  exact h.2.2.2.1 2 (by rw [h.2.1]; decide)

/-- C4: when the store global is `None`, `match_trials` fails immediately
with HTTP 500 and detail `Database not loaded`, producing no `matches`
array; the outcome does not depend on the reasoning service, so no audit is
launched. -/
theorem c4_store_unavailable (llm llm2 : LLMOracle) (summary : String) :
    match_trials none llm summary = .error (.httpException 500 "Database not loaded")
    ∧ match_trials none llm summary = match_trials none llm2 summary :=
  ⟨rfl, rfl⟩

/-- C5 counterexample: the audit loop is sequential, so with two retrieved
candidates whose audits take one time-unit each the pipeline takes two
time-units — the total is not bounded by the slowest single audit. -/
theorem c5_counterexample :
    retrieve_trials (some pairStore) "35F with pelvic pain" 3 = [usDoc1, usDoc2]
    ∧ auditTime (unitDur (buildPrompt "35F with pelvic pain" usDoc1))
        (okOracle (buildPrompt "35F with pelvic pain" usDoc1)) = 1
    ∧ auditTime (unitDur (buildPrompt "35F with pelvic pain" usDoc2))
        (okOracle (buildPrompt "35F with pelvic pain" usDoc2)) = 1
    ∧ matchLatency pairStore okOracle unitDur "35F with pelvic pain" = 2
    ∧ ¬ matchLatency pairStore okOracle unitDur "35F with pelvic pain" ≤ 1 := by
  decide

/-- C5 amended: the audits are executed sequentially in retrieval order,
one blocking call per candidate, so the pipeline latency equals the sum of
the per-candidate audit times (each including its own retries and backoff
waits) and is bounded below — not above — by the slowest single audit;
output order is the retrieval order. -/
theorem c5_sequential_latency (db : VectorStore) (llm : LLMOracle)
    (attDur : String → Nat → Nat) (summary : String) :
    match_trials (some db) llm summary
      = .ok ((retrieve_trials (some db) summary 3).map (auditEntry llm summary))
    ∧ matchLatency db llm attDur summary
      = (List.map
          (fun doc => auditTime (attDur (buildPrompt summary doc)) (llm (buildPrompt summary doc)))
          (retrieve_trials (some db) summary 3)).sum
    ∧ ∀ doc ∈ retrieve_trials (some db) summary 3,
        auditTime (attDur (buildPrompt summary doc)) (llm (buildPrompt summary doc))
          ≤ matchLatency db llm attDur summary := by
  refine ⟨rfl, rfl, ?_⟩
  intro doc hdoc
  exact List.single_le_sum (fun y _ => Nat.zero_le y) _ (List.mem_map_of_mem _ hdoc)

/-- C5 witness: on the two-document store the response is the ordered map
over the retrieved documents and the first audit time bounds the latency
from below. -/
theorem c5_sequential_latency_witness :
    match_trials (some pairStore) okOracle "35F with pelvic pain"
      = .ok ((retrieve_trials (some pairStore) "35F with pelvic pain" 3).map
          (auditEntry okOracle "35F with pelvic pain"))
    ∧ auditTime (unitDur (buildPrompt "35F with pelvic pain" usDoc1))
        (okOracle (buildPrompt "35F with pelvic pain" usDoc1))
        ≤ matchLatency pairStore okOracle unitDur "35F with pelvic pain" := by
  have h := c5_sequential_latency pairStore okOracle unitDur "35F with pelvic pain"
  exact ⟨h.1, h.2.2 usDoc1 (by decide)⟩

/-- C6: retrieval returns `[]` (not an error) when the store is `None` or
its index is empty, returns at most `k` documents, returns exactly the
matching documents when fewer than `k` satisfy the filter, returns only
documents passing the domestic-trial filter, and a retrieval of zero
candidates yields the response `.ok []`, not an error. -/
theorem c6_retrieval_contract (db : VectorStore) (llm : LLMOracle) (q : String) (k : Nat) :
    retrieve_trials none q k = []
    ∧ (db.ranked q = [] → retrieve_trials (some db) q k = [])
    ∧ (retrieve_trials (some db) q k).length ≤ k
    ∧ ((List.filter (fun d => us_filter d.metadata) (db.ranked q)).length < k →
        retrieve_trials (some db) q k
          = List.filter (fun d => us_filter d.metadata) (db.ranked q))
    ∧ (∀ d ∈ retrieve_trials (some db) q k, us_filter d.metadata = true)
    ∧ (retrieve_trials (some db) q 3 = [] → match_trials (some db) llm q = .ok []) := by
  refine ⟨rfl, ?_, retrieve_length_le db q k, ?_, ?_, ?_⟩
  · intro h
    show (List.filter (fun d => us_filter d.metadata) (db.ranked q)).take k = []
    simp [h]
  · intro h
    show (List.filter (fun d => us_filter d.metadata) (db.ranked q)).take k
      = List.filter (fun d => us_filter d.metadata) (db.ranked q)
    exact List.take_of_length_le (Nat.le_of_lt h)
  · intro d hd
    have hd2 : d ∈ (List.filter (fun x => us_filter x.metadata) (db.ranked q)).take k := hd
    exact (List.mem_filter.mp (List.mem_of_mem_take hd2)).2
  · intro h
    show Except.ok (List.map (auditEntry llm q) (retrieve_trials (some db) q 3)) = Except.ok []
    rw [h]
    rfl

/-- C6 witness: the empty store retrieves zero candidates and the response
is the empty matches array; on the demo store a retrieved document passes
the filter. -/
theorem c6_retrieval_contract_witness :
    retrieve_trials none "q" 3 = []
    ∧ retrieve_trials (some emptyStore) "q" 3 = []
    ∧ match_trials (some emptyStore) okOracle "q" = .ok []
    ∧ us_filter usDoc1.metadata = true := by
  have h1 := c6_retrieval_contract emptyStore okOracle "q" 3
  have h2 := c6_retrieval_contract demoStore okOracle "35F with pelvic pain" 3
  exact ⟨h1.1, h1.2.1 rfl, h1.2.2.2.2.2 (h1.2.1 rfl),
    h2.2.2.2.2.1 usDoc1 (by decide)⟩

/-- C7: the eligibility text included in the audit prompt is
`page_content` capped at 2500 characters — the prompt embeds
`truncatedCriteria`, which equals the full text when it has at most 2500
characters and the first 2500 characters (length exactly 2500) when it is
longer. -/
theorem c7_truncation (summary : String) (doc : Document) :
    (∃ x y, buildPrompt summary doc = x ++ truncatedCriteria doc ++ y)
    ∧ (doc.page_content.length ≤ 2500 → truncatedCriteria doc = doc.page_content)
    ∧ (2500 ≤ doc.page_content.length → (truncatedCriteria doc).length = 2500)
    ∧ (truncatedCriteria doc).data = doc.page_content.data.take 2500 := by
  refine ⟨⟨promptHead ++ summary ++ promptPhase
      ++ (metaGetD doc.metadata "phase" "Unknown").pyStr ++ promptCriteria, promptTail, ?_⟩,
    ?_, ?_, rfl⟩
  · simp [buildPrompt, promptHead, promptPhase, promptCriteria, promptTail, String.append_assoc]
  · intro h
    unfold truncatedCriteria pySlice
    rw [List.take_of_length_le h]
  · intro h
    unfold truncatedCriteria pySlice
    show (doc.page_content.data.take 2500).length = 2500
    rw [List.length_take]
    exact min_eq_left h

set_option maxRecDepth 100000 in
/-- C7 witness: a short eligibility text is embedded unchanged, and a
3000-character text is cut to exactly 2500 characters. -/
theorem c7_truncation_witness :
    truncatedCriteria usDoc1 = usDoc1.page_content
    ∧ (truncatedCriteria longDoc).length = 2500 := by
  have h1 := c7_truncation "pt" usDoc1
  have h2 := c7_truncation "pt" longDoc
  refine ⟨h1.2.1 (by decide), h2.2.2.1 ?_⟩
  show 2500 ≤ longDoc.page_content.length
  simp [longDoc, String.length]

set_option maxRecDepth 100000 in
/-- C8 counterexample: the verdict tokens the prompt instructs the service
to begin with are YES, NO and MAYBE — neither `NOT-ELIGIBLE` nor
`UNCERTAIN` occurs anywhere in the prompt, so no instruction names the
claimed ELIGIBLE/NOT-ELIGIBLE/UNCERTAIN tokens. -/
theorem c8_counterexample :
    hasSubstr (buildPrompt "35F with pelvic pain" usDoc1) "NOT-ELIGIBLE" = false
    ∧ hasSubstr (buildPrompt "35F with pelvic pain" usDoc1) "UNCERTAIN" = false
    ∧ hasSubstr (buildPrompt "35F with pelvic pain" usDoc1)
        "Start with YES, NO, or MAYBE." = true := by
  decide

/-- C8 amended: every audit prompt contains the patient case, the trial
phase, the truncated eligibility text and the fixed instruction telling the
service to begin its answer with one of YES/NO/MAYBE, and on a successful
call the entry `analysis` (the audit result) is the raw response text. -/
theorem c8_prompt_contents (summary : String) (doc : Document) (llm : LLMOracle)
    (content : String)
    (hok : (generate_audit_sync (llm (buildPrompt summary doc))).result = .ok content) :
    hasSubstr (buildPrompt summary doc) summary = true
    ∧ hasSubstr (buildPrompt summary doc) (metaGetD doc.metadata "phase" "Unknown").pyStr = true
    ∧ hasSubstr (buildPrompt summary doc) (truncatedCriteria doc) = true
    ∧ hasSubstr (buildPrompt summary doc) instructionText = true
    ∧ (auditEntry llm summary doc).analysis = content := by
  refine ⟨?_, ?_, ?_, ?_, ?_⟩
  · refine hasSubstr_decomp promptHead summary
      (promptPhase ++ (metaGetD doc.metadata "phase" "Unknown").pyStr
        ++ promptCriteria ++ truncatedCriteria doc ++ promptTail) _ ?_
    simp [buildPrompt, promptHead, promptPhase, promptCriteria, promptTail, String.append_assoc]
  · refine hasSubstr_decomp (promptHead ++ summary ++ promptPhase)
      ((metaGetD doc.metadata "phase" "Unknown").pyStr)
      (promptCriteria ++ truncatedCriteria doc ++ promptTail) _ ?_
    simp [buildPrompt, promptHead, promptPhase, promptCriteria, promptTail, String.append_assoc]
  · refine hasSubstr_decomp
      (promptHead ++ summary ++ promptPhase ++ (metaGetD doc.metadata "phase" "Unknown").pyStr
        ++ promptCriteria) (truncatedCriteria doc) promptTail _ ?_
    simp [buildPrompt, promptHead, promptPhase, promptCriteria, promptTail, String.append_assoc]
  · refine hasSubstr_decomp
      (promptHead ++ summary ++ promptPhase ++ (metaGetD doc.metadata "phase" "Unknown").pyStr
        ++ promptCriteria ++ truncatedCriteria doc ++ "\n            \n            ")
      instructionText "\n            " _ ?_
    simp [buildPrompt, promptHead, promptPhase, promptCriteria, promptTail, instructionText,
      String.append_assoc]
  · simp [auditEntry, hok]

/-- C8 witness: the demo prompt contains the patient case and the fixed
YES/NO/MAYBE instruction, and the successful audit entry carries the raw
response. -/
theorem c8_prompt_contents_witness :
    hasSubstr (buildPrompt "35F with pelvic pain" usDoc1) "35F with pelvic pain" = true
    ∧ hasSubstr (buildPrompt "35F with pelvic pain" usDoc1) instructionText = true
    ∧ (auditEntry okOracle "35F with pelvic pain" usDoc1).analysis
        = "YES. The patient meets the criteria." := by
  have h := c8_prompt_contents "35F with pelvic pain" usDoc1 okOracle
    "YES. The patient meets the criteria." rfl
  exact ⟨h.1, h.2.2.2.1, h.2.2.2.2⟩

set_option maxRecDepth 100000 in
/-- C9 counterexample: a retrieved document whose metadata maps `nct_id` to
the empty string yields an entry whose `nct_id` is the empty string — the
metadata had an `nct_id`, yet the returned field is not non-empty. -/
theorem c9_counterexample :
    (metaGet emptyIdDoc.metadata "nct_id").isSome = true
    ∧ match_trials (some emptyIdStore) okOracle "q"
        = .ok [⟨.strV "", .strV "Untitled", .strV "N/A", .strV "#",
               "YES. The patient meets the criteria."⟩] := by
  decide

/-- C9 amended: each entry field equals the metadata value when the key is
present (hence `nct_id` is non-empty whenever the stored value is a
non-empty string) and otherwise the fixed fallback: `N/A` for `nct_id`,
`Untitled` for `title`, `N/A` for `phase`, `#` for `url`. -/
theorem c9_field_fallbacks (llm : LLMOracle) (summary : String) (doc : Document) :
    (∀ v, metaGet doc.metadata "nct_id" = some v → (auditEntry llm summary doc).nct_id = v)
    ∧ (metaGet doc.metadata "nct_id" = none → (auditEntry llm summary doc).nct_id = .strV "N/A")
    ∧ (∀ v, metaGet doc.metadata "title" = some v → (auditEntry llm summary doc).title = v)
    ∧ (metaGet doc.metadata "title" = none →
        (auditEntry llm summary doc).title = .strV "Untitled")
    ∧ (∀ v, metaGet doc.metadata "phase" = some v → (auditEntry llm summary doc).phase = v)
    ∧ (metaGet doc.metadata "phase" = none → (auditEntry llm summary doc).phase = .strV "N/A")
    ∧ (∀ v, metaGet doc.metadata "url" = some v → (auditEntry llm summary doc).url = v)
    ∧ (metaGet doc.metadata "url" = none → (auditEntry llm summary doc).url = .strV "#") := by
  refine ⟨?_, ?_, ?_, ?_, ?_, ?_, ?_, ?_⟩ <;> first
    | (intro v h; simp [auditEntry, metaGetD, h])
    | (intro h; simp [auditEntry, metaGetD, h])

/-- C9 witness: a populated document keeps its `nct_id` and a document
without a title gets the `Untitled` fallback. -/
theorem c9_field_fallbacks_witness :
    (auditEntry okOracle "q" usDoc1).nct_id = .strV "NCT00000001"
    ∧ (auditEntry okOracle "q" noFlagDoc).title = .strV "Untitled" := by
  have h1 := c9_field_fallbacks okOracle "q" usDoc1
  have h2 := c9_field_fallbacks okOracle "q" noFlagDoc
  exact ⟨h1.1 (.strV "NCT00000001") rfl, h2.2.2.2.1 rfl⟩

/-- C10: every document returned by retrieval has `is_us_trial` mapped to
exactly the boolean `True`; by contraposition a document lacking the key or
mapping it to any other value — including truthy non-booleans such as the
integer 1 — is never returned, because the filter tests identity with
`True`, not truthiness. -/
theorem c10_strict_us_filter (db : VectorStore) (q : String) (k : Nat) (doc : Document)
    (h : doc ∈ retrieve_trials (some db) q k) :
    metaGet doc.metadata "is_us_trial" = some (.boolV true) := by
  have h2 : doc ∈ (List.filter (fun x => us_filter x.metadata) (db.ranked q)).take k := h
  have h3 := (List.mem_filter.mp (List.mem_of_mem_take h2)).2
  unfold us_filter at h3
  cases hm : metaGet doc.metadata "is_us_trial" with
  | none => rw [hm] at h3; simp at h3
  | some v =>
    cases v with
    | boolV b =>
      cases b with
      | true => rfl
      | false => rw [hm] at h3; simp at h3
    | intV n => rw [hm] at h3; simp at h3
    | strV t => rw [hm] at h3; simp at h3
    | noneV => rw [hm] at h3; simp at h3

set_option maxRecDepth 100000 in
/-- C10 witness: `usDoc1` is retrieved from the demo store and its
`is_us_trial` value is exactly the boolean `True` (while the store also
ranks documents with the integer 1 or no flag, which are absent from the
retrieval result). -/
theorem c10_strict_us_filter_witness :
    usDoc1 ∈ retrieve_trials (some demoStore) "q" 3
    ∧ metaGet usDoc1.metadata "is_us_trial" = some (.boolV true)
    ∧ intDoc ∉ retrieve_trials (some demoStore) "q" 3
    ∧ noFlagDoc ∉ retrieve_trials (some demoStore) "q" 3 := by
  have hmem : usDoc1 ∈ retrieve_trials (some demoStore) "q" 3 := by decide
  exact ⟨hmem, c10_strict_us_filter demoStore "q" 3 usDoc1 hmem, by decide, by decide⟩
